import Mathlib

/-!
Verification of the document-intelligence risk-scoring core.

Shallow embedding of the TypeScript sources:
* `src/services/scoring-engine.service.ts` (risk scoring, grading, action generation),
* `src/services/ai-parsing.service.ts` (AI-backed extraction with rule fallbacks),
* `src/services/document-ingestion.service.ts` (document type detection),
* `src/routes/document.routes.ts` (in-memory store and the reanalyze handler).

Modelling conventions:
* All score arithmetic in the source is JS floating point, but every value that
  occurs is an integer multiple of 0.25 with small magnitude, hence exact in
  binary floating point.  Scores are therefore embedded as natural numbers
  scaled by 4 ("quarters"); `Math.round` on a non-negative quarter-value `q/4`
  is `(q + 2) / 4` in natural division (JS rounds .5 up).
* `randomUUID()` identifiers are omitted from the embedded records: they are
  nondeterministic and never examined by any of the logic under verification.
* JS strings are embedded as Lean `String`; `toLowerCase` is embedded as an
  ASCII-only character map (all keywords in the source are ASCII), and
  `String.prototype.includes` as substring containment over character lists.
* The JS regular expressions of the pattern extractors are embedded by an
  executable backtracking matcher (`Pat`) whose choice order mirrors the JS
  engine: alternation tries the left branch first and quantifiers are greedy.
-/

/-! ## Data model (src/types/index.ts) -/

inductive EntityType where
  | party_name | date | amount | term_duration | payment_terms
  | liability_clause | termination_clause | confidentiality_clause
  | indemnification_clause | governing_law | signature | contact_info
deriving DecidableEq

inductive RiskCategory where
  | missing_clause | unfavorable_terms | compliance_issue | liability_exposure
  | termination_risk | payment_risk | legal_ambiguity
deriving DecidableEq

inductive RiskSeverity where
  | low | medium | high | critical
deriving DecidableEq

inductive TermImportance where
  | required | recommended | optional
deriving DecidableEq

inductive BlockerType where
  | missing_signature | pending_approval | legal_review
  | negotiation_required | compliance_check | missing_document
deriving DecidableEq

inductive DocumentType where
  | contract | nda | proposal | agreement | invoice | sow | msa | unknown
deriving DecidableEq

inductive RiskGrade where
  | A | B | C | D | F
deriving DecidableEq

inductive ActionPriority where
  | urgent | high | medium | low
deriving DecidableEq

inductive ActionStatus where
  | pending | in_progress | completed
deriving DecidableEq

/-- ExtractedEntity; `confidence` is an exact rational (the source stores JS
numbers that are only ever written, never compared). `location` is optional in
the source and never produced by the core, so it is omitted. -/
structure ExtractedEntity where
  type : EntityType
  value : String
  confidence : ℚ
deriving DecidableEq

/-- DocumentRisk; the `id : string` (randomUUID) and the optional
`relatedClauses` are omitted (never read by the verified logic). -/
structure DocumentRisk where
  category : RiskCategory
  severity : RiskSeverity
  title : String
  description : String
  recommendation : String
deriving DecidableEq

structure MissingTerm where
  term : String
  importance : TermImportance
  description : String
  impact : String
deriving DecidableEq

/-- DealBlocker; the `id` (randomUUID) and the optional `assignedTo`/`dueDate`
are omitted (never read by the verified logic). -/
structure DealBlocker where
  type : BlockerType
  title : String
  description : String
  requiredAction : String
deriving DecidableEq

structure ScoreBreakdown where
  missingClauses : Nat
  unfavorableTerms : Nat
  complianceIssues : Nat
  liabilityExposure : Nat
deriving DecidableEq

structure RiskScore where
  overall : Nat
  breakdown : ScoreBreakdown
  grade : RiskGrade
deriving DecidableEq

/-- RequiredAction; the `id` (randomUUID) and optional `deadline` are
omitted. -/
structure RequiredAction where
  priority : ActionPriority
  action : String
  reason : String
  status : ActionStatus
deriving DecidableEq

structure DocumentAnalysis where
  documentId : String
  filename : String
  documentType : DocumentType
  uploadedAt : String
  analyzedAt : String
  entities : List ExtractedEntity
  risks : List DocumentRisk
  missingTerms : List MissingTerm
  blockers : List DealBlocker
  riskScore : RiskScore
  summary : String
  rawText : String
deriving DecidableEq

/-! ## Risk scoring engine (scoring-engine.service.ts, lines 33-131) -/

/-- RISK_WEIGHTS table.  The source reads `RISK_WEIGHTS[risk.category] || 10`;
with a well-typed category the lookup always succeeds, and the `|| 10`
default is unreachable. -/
def RISK_WEIGHTS : RiskCategory → Nat
  | .missing_clause => 15
  | .unfavorable_terms => 20
  | .compliance_issue => 25
  | .liability_exposure => 30
  | .termination_risk => 15
  | .payment_risk => 20
  | .legal_ambiguity => 10

/-- SEVERITY_MULTIPLIERS table (0.25 / 0.5 / 0.75 / 1.0), scaled by 4. -/
def SEVERITY_MULTIPLIERS : RiskSeverity → Nat
  | .low => 1
  | .medium => 2
  | .high => 3
  | .critical => 4

/-- Contribution of one risk, in quarters: `weight * multiplier`. -/
def riskScoreQ (risk : DocumentRisk) : Nat :=
  RISK_WEIGHTS risk.category * SEVERITY_MULTIPLIERS risk.severity

/-- Mutable state of the scoring loop: the running `totalScore` and the four
`breakdown` buckets, all in quarters. -/
structure ScoreAcc where
  total : Nat
  missingClauses : Nat
  unfavorableTerms : Nat
  complianceIssues : Nat
  liabilityExposure : Nat
deriving DecidableEq

/-- One iteration of the risk loop: add the contribution to the total and
route it into the bucket selected by the category switch. -/
def addRisk (acc : ScoreAcc) (risk : DocumentRisk) : ScoreAcc :=
  let s := riskScoreQ risk
  match risk.category with
  | .missing_clause =>
      { acc with total := acc.total + s, missingClauses := acc.missingClauses + s }
  | .unfavorable_terms | .termination_risk | .payment_risk =>
      { acc with total := acc.total + s, unfavorableTerms := acc.unfavorableTerms + s }
  | .compliance_issue | .legal_ambiguity =>
      { acc with total := acc.total + s, complianceIssues := acc.complianceIssues + s }
  | .liability_exposure =>
      { acc with total := acc.total + s, liabilityExposure := acc.liabilityExposure + s }

/-- Missing-term penalty (10 / 5 / 2 points), in quarters. -/
def termPenaltyQ (term : MissingTerm) : Nat :=
  match term.importance with
  | .required => 40
  | .recommended => 20
  | .optional => 8

/-- One iteration of the missing-term loop: the penalty goes to the total and
to the `missingClauses` bucket. -/
def addTerm (acc : ScoreAcc) (term : MissingTerm) : ScoreAcc :=
  { acc with total := acc.total + termPenaltyQ term,
             missingClauses := acc.missingClauses + termPenaltyQ term }

/-- JS `Math.round` on a non-negative quarter-scaled value. -/
def roundQ (q : Nat) : Nat := (q + 2) / 4

/-- calculateGrade (lines 125-131). -/
def calculateGrade (score : Nat) : RiskGrade :=
  if score ≤ 20 then .A
  else if score ≤ 40 then .B
  else if score ≤ 60 then .C
  else if score ≤ 80 then .D
  else .F

/-- calculateRiskScore (lines 56-120).  Each blocker adds 5 points
(20 quarters) to the total only. -/
def calculateRiskScore (risks : List DocumentRisk) (missingTerms : List MissingTerm)
    (blockers : List DealBlocker) : RiskScore :=
  let acc1 := risks.foldl addRisk ⟨0, 0, 0, 0, 0⟩
  let acc2 := missingTerms.foldl addTerm acc1
  let totalQ := acc2.total + blockers.length * 20
  let normalizedScore := Nat.min 100 (roundQ totalQ)
  { overall := normalizedScore,
    breakdown :=
      { missingClauses := Nat.min 25 (roundQ acc2.missingClauses),
        unfavorableTerms := Nat.min 25 (roundQ acc2.unfavorableTerms),
        complianceIssues := Nat.min 25 (roundQ acc2.complianceIssues),
        liabilityExposure := Nat.min 25 (roundQ acc2.liabilityExposure) },
    grade := calculateGrade normalizedScore }

/-! ### Closed form of the scoring loop -/

/-- Contribution of a risk to the `missingClauses` bucket. -/
def mcContrib (risk : DocumentRisk) : Nat :=
  match risk.category with
  | .missing_clause => riskScoreQ risk
  | _ => 0

/-- Contribution of a risk to the `unfavorableTerms` bucket. -/
def utContrib (risk : DocumentRisk) : Nat :=
  match risk.category with
  | .unfavorable_terms | .termination_risk | .payment_risk => riskScoreQ risk
  | _ => 0

/-- Contribution of a risk to the `complianceIssues` bucket. -/
def ciContrib (risk : DocumentRisk) : Nat :=
  match risk.category with
  | .compliance_issue | .legal_ambiguity => riskScoreQ risk
  | _ => 0

/-- Contribution of a risk to the `liabilityExposure` bucket. -/
def leContrib (risk : DocumentRisk) : Nat :=
  match risk.category with
  | .liability_exposure => riskScoreQ risk
  | _ => 0

theorem addRisk_eq (acc : ScoreAcc) (r : DocumentRisk) :
    addRisk acc r =
      ⟨acc.total + riskScoreQ r, acc.missingClauses + mcContrib r,
       acc.unfavorableTerms + utContrib r, acc.complianceIssues + ciContrib r,
       acc.liabilityExposure + leContrib r⟩ := by
  cases h : r.category <;>
    simp [addRisk, mcContrib, utContrib, ciContrib, leContrib, h]

theorem foldl_addRisk (risks : List DocumentRisk) (acc : ScoreAcc) :
    risks.foldl addRisk acc =
      ⟨acc.total + (risks.map riskScoreQ).sum,
       acc.missingClauses + (risks.map mcContrib).sum,
       acc.unfavorableTerms + (risks.map utContrib).sum,
       acc.complianceIssues + (risks.map ciContrib).sum,
       acc.liabilityExposure + (risks.map leContrib).sum⟩ := by
  induction risks generalizing acc with
  | nil => simp
  | cons r rest ih =>
      simp only [List.foldl_cons, List.map_cons, List.sum_cons, addRisk_eq, ih]
      congr 1 <;> omega

theorem foldl_addTerm (terms : List MissingTerm) (acc : ScoreAcc) :
    terms.foldl addTerm acc =
      { acc with total := acc.total + (terms.map termPenaltyQ).sum,
                 missingClauses := acc.missingClauses + (terms.map termPenaltyQ).sum } := by
  induction terms generalizing acc with
  | nil => simp
  | cons t rest ih =>
      simp only [List.foldl_cons, List.map_cons, List.sum_cons, addTerm, ih]
      congr 1 <;> omega

/-- Closed form of `calculateRiskScore`: every field is a clamped rounding of
a sum over the input collections. -/
theorem calculateRiskScore_eq (risks : List DocumentRisk) (terms : List MissingTerm)
    (blockers : List DealBlocker) :
    calculateRiskScore risks terms blockers =
      { overall := Nat.min 100 (roundQ ((risks.map riskScoreQ).sum +
                    (terms.map termPenaltyQ).sum + blockers.length * 20)),
        breakdown :=
          { missingClauses := Nat.min 25 (roundQ ((risks.map mcContrib).sum +
              (terms.map termPenaltyQ).sum)),
            unfavorableTerms := Nat.min 25 (roundQ (risks.map utContrib).sum),
            complianceIssues := Nat.min 25 (roundQ (risks.map ciContrib).sum),
            liabilityExposure := Nat.min 25 (roundQ (risks.map leContrib).sum) },
        grade := calculateGrade (Nat.min 100 (roundQ ((risks.map riskScoreQ).sum +
                    (terms.map termPenaltyQ).sum + blockers.length * 20))) } := by
  simp only [calculateRiskScore, foldl_addRisk, foldl_addTerm]
  simp [Nat.add_assoc]

/-! ## String utilities (JS string semantics over ASCII content) -/

/-- ASCII lowercase map, embedding JS `toLowerCase` (all keywords compared in
the source are ASCII). -/
def strLower (s : String) : String :=
  (s.toList.map Char.toLower).asString

/-- Test whether `sub` occurs at the start of `hay`. -/
def startsWithList (sub hay : List Char) : Bool :=
  match sub, hay with
  | [], _ => true
  | _ :: _, [] => false
  | c :: cs, d :: ds => c = d && startsWithList cs ds

/-- List-level substring containment. -/
def containsSub (sub hay : List Char) : Bool :=
  match hay with
  | [] => sub.isEmpty
  | _ :: ds => startsWithList sub hay || containsSub sub ds

/-- Embedding of JS `hay.includes(sub)`. -/
def strIncludes (hay sub : String) : Bool :=
  containsSub sub.toList hay.toList

/-! ## Document classifier (document-ingestion.service.ts, lines 98-143) -/

/-- Filename-substring chain of `detectDocumentType` (lines 102-123), in
source order with first match winning; `none` when no filename check fires.
The argument is the already-lowercased filename. -/
def filenameType (lowerFilename : String) : Option DocumentType :=
  if strIncludes lowerFilename "nda" || strIncludes lowerFilename "non-disclosure" then
    some .nda
  else if strIncludes lowerFilename "proposal" then some .proposal
  else if strIncludes lowerFilename "contract" then some .contract
  else if strIncludes lowerFilename "agreement" then some .agreement
  else if strIncludes lowerFilename "invoice" then some .invoice
  else if strIncludes lowerFilename "sow" || strIncludes lowerFilename "statement of work" then
    some .sow
  else if strIncludes lowerFilename "msa" || strIncludes lowerFilename "master service" then
    some .msa
  else none

/-- Content-pattern table of `detectDocumentType` (lines 126-133). -/
def contentPatterns : List (DocumentType × List String) :=
  [(.nda, ["non-disclosure", "confidential information", "proprietary"]),
   (.proposal, ["proposal", "proposed solution", "pricing", "quote"]),
   (.contract, ["agreement", "terms and conditions", "hereby agree"]),
   (.invoice, ["invoice", "bill to", "payment due", "amount due"]),
   (.sow, ["statement of work", "deliverables", "scope of work"]),
   (.msa, ["master service agreement", "master agreement"])]

/-- Content loop of `detectDocumentType` (lines 135-142): first pattern whose
keyword match count reaches 2 wins; otherwise `unknown`. -/
def contentType (lowerText : String) : DocumentType :=
  match contentPatterns.find?
      (fun p => 2 ≤ (p.2.filter (fun kw => strIncludes lowerText kw)).length) with
  | some p => p.1
  | none => .unknown

/-- detectDocumentType (lines 98-143). -/
def detectDocumentType (text filename : String) : DocumentType :=
  let lowerText := strLower text
  let lowerFilename := strLower filename
  match filenameType lowerFilename with
  | some t => t
  | none => contentType lowerText

/-! ## Executable embedding of the JS regular expressions
(ai-parsing.service.ts pattern extractors)

The matcher enumerates candidate remainders in exactly the JS backtracking
order (left alternative first, greedy quantifiers longest-first); the first
candidate is the JS match.  Word boundaries: every pattern that uses `\b`
starts and ends with word characters (digits or letters), so the leading `\b`
is equivalent to "the previous character is not a word character" (checked by
the scan driver) and the trailing `\b` to "the next character is not a word
character" (the `nonWordNext` node). -/

/-- JS `\d`. -/
def isDigitChar (c : Char) : Bool := '0' ≤ c && c ≤ '9'

/-- JS `\w` = `[A-Za-z0-9_]`. -/
def isWordChar (c : Char) : Bool := c.isAlpha || isDigitChar c || c = '_'

/-- JS `\s` (whitespace class). -/
def isSpaceJS (c : Char) : Bool :=
  c = ' ' || c = '\t' || c = '\n' || c = '\x0b' || c = '\x0c' || c = '\r' ||
  c = ' ' || c = ' ' || (' ' ≤ c && c ≤ ' ') ||
  c = ' ' || c = ' ' || c = ' ' || c = ' ' ||
  c = '　' || c = '﻿'

/-- Line terminators that JS `.` does not match. -/
def isNewlineJS (c : Char) : Bool :=
  c = '\n' || c = '\r' || c = ' ' || c = ' '

/-- Regex fragments used by the source patterns. -/
inductive Pat where
  | one (p : Char → Bool)
  | lit (s : String) (ci : Bool)
  | seq (a b : Pat)
  | alt (a b : Pat)
  | rep (p : Char → Bool) (lo : Nat) (hi : Option Nat)
  | opt (a : Pat)
  | nonWordNext

/-- Match a literal at the head of the input, optionally case-insensitively. -/
def litMatch (ci : Bool) : List Char → List Char → Option (List Char)
  | [], rest => some rest
  | _ :: _, [] => none
  | c :: cs, d :: ds =>
      if (if ci then d.toLower = c.toLower else d = c) then litMatch ci cs ds else none

/-- Length of the maximal run of characters satisfying `p`. -/
def countWhile (p : Char → Bool) : List Char → Nat
  | [] => 0
  | c :: cs => if p c then countWhile p cs + 1 else 0

/-- All candidate remainders after matching `pat` at the head of the input,
in JS backtracking priority order (head = the JS engine's choice). -/
def Pat.matchList : Pat → List Char → List (List Char)
  | .one _, [] => []
  | .one p, c :: cs => if p c then [cs] else []
  | .lit s ci, cs =>
      match litMatch ci s.toList cs with
      | some rest => [rest]
      | none => []
  | .seq a b, cs => (a.matchList cs).flatMap b.matchList
  | .alt a b, cs => a.matchList cs ++ b.matchList cs
  | .opt a, cs => a.matchList cs ++ [cs]
  | .rep p lo hi, cs =>
      let maxAvail := countWhile p cs
      let top := match hi with
        | some h => Nat.min h maxAvail
        | none => maxAvail
      if top < lo then []
      else (List.range (top + 1 - lo)).map (fun i => cs.drop (top - i))
  | .nonWordNext, [] => [[]]
  | .nonWordNext, c :: cs => if isWordChar c then [] else [c :: cs]

/-- The JS engine's match at this position: the first candidate remainder. -/
def firstMatchTail (p : Pat) (cs : List Char) : Option (List Char) :=
  (p.matchList cs).head?

/-- Embedding of `text.matchAll(re)` for the global patterns: scan positions
left to right, record each first match and resume after its end.  `wb` is set
for patterns with a leading `\b` (previous character must not be a word
character).  The `fuel` argument only serves structural termination: every
step consumes at least one character, so fuel equal to the text length never
runs out. -/
def scanAll (wb : Bool) (p : Pat) : Nat → Bool → List Char → List (List Char)
  | 0, _, _ => []
  | _ + 1, _, [] => []
  | fuel + 1, prevWord, c :: cs1 =>
      if wb && prevWord then scanAll wb p fuel (isWordChar c) cs1
      else
        match firstMatchTail p (c :: cs1) with
        | some rest =>
            let len := (c :: cs1).length - rest.length
            if len = 0 then scanAll wb p fuel (isWordChar c) cs1
            else
              let m := (c :: cs1).take len
              m :: scanAll wb p fuel (isWordChar (m.getLastD c)) ((c :: cs1).drop len)
        | none => scanAll wb p fuel (isWordChar c) cs1

/-- Matched substrings of `text.matchAll(re)` in order. -/
def regexMatches (wb : Bool) (p : Pat) (text : String) : List String :=
  (scanAll wb p text.toList.length false text.toList).map List.asString

/-- Embedding of `re.test(text)`: some position matches. -/
def regexTestList (p : Pat) : List Char → Bool
  | [] => !(p.matchList []).isEmpty
  | c :: cs => !(p.matchList (c :: cs)).isEmpty || regexTestList p cs

/-- Embedding of `re.test(text)` on a string. -/
def regexTest (p : Pat) (text : String) : Bool :=
  regexTestList p text.toList

/-- Left-to-right alternation chain. -/
def altChain : Pat → List Pat → Pat
  | p, [] => p
  | p, q :: qs => .alt p (altChain q qs)

/-! ## Source regular expressions as `Pat` values -/

/-- Date pattern 1 (value is the capture, which equals the whole match):
the slash form of `\b(\d{1,2}\/\d{1,2}\/\d{2,4})\b`, global flag. -/
def dateSlashPat : Pat :=
  .seq (.rep isDigitChar 1 (some 2))
    (.seq (.lit "/" false)
      (.seq (.rep isDigitChar 1 (some 2))
        (.seq (.lit "/" false)
          (.seq (.rep isDigitChar 2 (some 4)) .nonWordNext))))

/-- Date pattern 2: the dash form `\b(\d{1,2}-\d{1,2}-\d{2,4})\b`, global. -/
def dateDashPat : Pat :=
  .seq (.rep isDigitChar 1 (some 2))
    (.seq (.lit "-" false)
      (.seq (.rep isDigitChar 1 (some 2))
        (.seq (.lit "-" false)
          (.seq (.rep isDigitChar 2 (some 4)) .nonWordNext))))

/-- Month-name alternation of date pattern 3, in source order,
case-insensitive. -/
def monthAlt : Pat :=
  altChain (.lit "January" true)
    [.lit "February" true, .lit "March" true, .lit "April" true, .lit "May" true,
     .lit "June" true, .lit "July" true, .lit "August" true, .lit "September" true,
     .lit "October" true, .lit "November" true, .lit "December" true]

/-- Date pattern 3: `\b(Month)\s+\d{1,2},?\s+\d{4}\b` with the `gi` flags;
its capture group is just the month name. -/
def monthDatePat : Pat :=
  .seq monthAlt
    (.seq (.rep isSpaceJS 1 none)
      (.seq (.rep isDigitChar 1 (some 2))
        (.seq (.opt (.lit "," false))
          (.seq (.rep isSpaceJS 1 none)
            (.seq (.rep isDigitChar 4 (some 4)) .nonWordNext)))))

/-- Amount pattern `\$[\d,]+(?:\.\d{2})?`, global. -/
def amountPat : Pat :=
  .seq (.lit "$" false)
    (.seq (.rep (fun c => isDigitChar c || c = ',') 1 none)
      (.opt (.seq (.lit "." false) (.rep isDigitChar 2 (some 2)))))

/-- Term pattern 1:
`(?:term|duration|period)\s+(?:of\s+)?(\d+)\s+(years?|months?|days?)` with
the `gi` flags; the recorded value is the whole match. -/
def termDurationPat1 : Pat :=
  .seq (altChain (.lit "term" true) [.lit "duration" true, .lit "period" true])
    (.seq (.rep isSpaceJS 1 none)
      (.seq (.opt (.seq (.lit "of" true) (.rep isSpaceJS 1 none)))
        (.seq (.rep isDigitChar 1 none)
          (.seq (.rep isSpaceJS 1 none)
            (altChain (.seq (.lit "year" true) (.opt (.lit "s" true)))
              [.seq (.lit "month" true) (.opt (.lit "s" true)),
               .seq (.lit "day" true) (.opt (.lit "s" true))])))))

/-- Term pattern 2:
`(\d+)\s*(year|month|day)\s*(?:term|agreement|contract)` with the `gi`
flags. -/
def termDurationPat2 : Pat :=
  .seq (.rep isDigitChar 1 none)
    (.seq (.rep isSpaceJS 0 none)
      (.seq (altChain (.lit "year" true) [.lit "month" true, .lit "day" true])
        (.seq (.rep isSpaceJS 0 none)
          (altChain (.lit "term" true) [.lit "agreement" true, .lit "contract" true]))))

/-- Unfavorable-language pattern `/unlimited liability/i`. -/
def unlimitedLiabilityPat : Pat := .lit "unlimited liability" true

/-- Unfavorable-language pattern `/waive.*rights?/i`; `.` does not match JS
line terminators. -/
def waiveRightsPat : Pat :=
  .seq (.lit "waive" true)
    (.seq (.rep (fun c => !isNewlineJS c) 0 none)
      (.seq (.lit "right" true) (.opt (.lit "s" true))))

/-- Unfavorable-language pattern `/automatic renewal/i`. -/
def autoRenewalPat : Pat := .lit "automatic renewal" true

/-- Unfavorable-language pattern `/non-compete/i`. -/
def nonCompetePat : Pat := .lit "non-compete" true

/-! ## Pattern-based extraction (ai-parsing.service.ts, lines 340-488) -/

/-- Capture group of date pattern 3: the month name, which is the maximal
prefix of the whole match not containing whitespace. -/
def monthCapture (s : String) : String :=
  (s.toList.takeWhile (fun c => !isSpaceJS c)).asString

/-- extractEntitiesWithPatterns (lines 340-390): dates (confidence 0.8, value
= capture group), amounts (0.9, whole match), term durations (0.7, whole
match), in the source's pattern order. -/
def extractEntitiesWithPatterns (text : String) : List ExtractedEntity :=
  ((regexMatches true dateSlashPat text).map fun v => ⟨.date, v, 8 / 10⟩)
  ++ ((regexMatches true dateDashPat text).map fun v => ⟨.date, v, 8 / 10⟩)
  ++ ((regexMatches true monthDatePat text).map fun v => ⟨.date, monthCapture v, 8 / 10⟩)
  ++ ((regexMatches false amountPat text).map fun v => ⟨.amount, v, 9 / 10⟩)
  ++ ((regexMatches false termDurationPat1 text).map fun v => ⟨.term_duration, v, 7 / 10⟩)
  ++ ((regexMatches false termDurationPat2 text).map fun v => ⟨.term_duration, v, 7 / 10⟩)

/-- Standard-clause checklist of identifyRisksWithRules (lines 444-450). -/
def standardClauses : List (String × List String) :=
  [("termination", ["termination", "terminate", "cancellation"]),
   ("liability", ["liability", "limitation of liability", "damages"]),
   ("indemnification", ["indemnify", "indemnification", "hold harmless"]),
   ("confidentiality", ["confidential", "proprietary", "non-disclosure"]),
   ("governing law", ["governing law", "jurisdiction", "venue"])]

/-- Unfavorable-language table of identifyRisksWithRules (lines 467-472). -/
def unfavorablePatterns : List (Pat × String × RiskSeverity) :=
  [(unlimitedLiabilityPat, "Unlimited Liability", .high),
   (waiveRightsPat, "Rights Waiver", .medium),
   (autoRenewalPat, "Auto-Renewal", .low),
   (nonCompetePat, "Non-Compete Clause", .medium)]

/-- identifyRisksWithRules (lines 439-488).  The `documentType` parameter is
unused in the source body as well. -/
def identifyRisksWithRules (text : String) (documentType : String) : List DocumentRisk :=
  let lowerText := strLower text
  ((standardClauses.filter fun clause =>
      !(clause.2.any fun kw => strIncludes lowerText kw)).map fun clause =>
    { category := .missing_clause, severity := .medium,
      title := "Missing " ++ clause.1 ++ " clause",
      description := "The document does not appear to contain a " ++ clause.1 ++ " clause.",
      recommendation := "Add a " ++ clause.1 ++ " clause to protect your interests." })
  ++ ((unfavorablePatterns.filter fun u => regexTest u.1 text).map fun u =>
    { category := .unfavorable_terms, severity := u.2.2,
      title := u.2.1,
      description := "The document contains " ++ strLower u.2.1 ++
        " language that may be unfavorable.",
      recommendation := "Review and potentially negotiate the " ++ strLower u.2.1 ++
        " terms." })

/-! ## AI-backed analyzer dispatch (ai-parsing.service.ts, lines 299-434)

The external OpenAI call is modelled by an oracle value describing its
observable outcome.  `config.openai.apiKey` defaults to the empty string
(config/index.ts line 54), and the guard `!config.openai.apiKey` is empty
string falsiness, so the credential check is `apiKey = ""`.  The returned
Boolean records whether the external call was attempted (the `try` block was
entered). -/

/-- Outcome of one external analyzer call.  `throws` covers both a failing
API call and unparseable content (`JSON.parse` throwing inside the same
`try`); `noContent` is a response without message content; `parsed v` is
successfully parsed structured output. -/
inductive AiCall (α : Type) where
  | throws
  | noContent
  | parsed (v : α)

/-- extractEntities (lines 299-335): pattern fallback when unconfigured or on
any failure; the parsed entities otherwise. -/
def extractEntities (apiKey : String) (call : AiCall (List ExtractedEntity))
    (text : String) : List ExtractedEntity × Bool :=
  if apiKey = "" then (extractEntitiesWithPatterns text, false)
  else
    match call with
    | .parsed v => (v, true)
    | _ => (extractEntitiesWithPatterns text, true)

/-- identifyRisks (lines 395-434): rule fallback when unconfigured or on any
failure; the parsed risks (re-keyed with fresh UUIDs, which the embedding
omits) otherwise. -/
def identifyRisks (apiKey : String) (call : AiCall (List DocumentRisk))
    (text : String) (documentType : String) : List DocumentRisk × Bool :=
  if apiKey = "" then (identifyRisksWithRules text documentType, false)
  else
    match call with
    | .parsed risks => (risks, true)
    | _ => (identifyRisksWithRules text documentType, true)

/-! ## Deal blockers (ai-parsing.service.ts, lines 543-587) -/

/-- Blocker pushed when no signature keyword is present (lines 553-559). -/
def signatureBlocker : DealBlocker :=
  { type := .missing_signature, title := "Signatures Required",
    description := "The document requires signatures to be legally binding.",
    requiredAction := "Obtain signatures from all parties." }

/-- Blocker generated from a critical-severity risk (lines 564-571). -/
def legalReviewBlocker (risk : DocumentRisk) : DealBlocker :=
  { type := .legal_review, title := "Critical Risk: " ++ risk.title,
    description := risk.description, requiredAction := risk.recommendation }

/-- Blocker generated from a required-importance missing term (lines
576-583). -/
def negotiationBlocker (term : MissingTerm) : DealBlocker :=
  { type := .negotiation_required, title := "Missing: " ++ term.term,
    description := term.description,
    requiredAction := "Add " ++ term.term ++ " to the document." }

/-- identifyBlockers (lines 543-587), mirroring the sequential array pushes
of the source. -/
def identifyBlockers (text : String) (risks : List DocumentRisk)
    (missingTerms : List MissingTerm) : List DealBlocker :=
  let lowerText := strLower text
  let blockers : Array DealBlocker := #[]
  let blockers :=
    if !strIncludes lowerText "signature" && !strIncludes lowerText "signed by" then
      blockers.push signatureBlocker
    else blockers
  let criticalRisks := risks.filter fun r => r.severity = .critical
  let blockers := criticalRisks.foldl (fun acc risk => acc.push (legalReviewBlocker risk)) blockers
  let requiredMissing := missingTerms.filter fun t => t.importance = .required
  let blockers := requiredMissing.foldl (fun acc term => acc.push (negotiationBlocker term)) blockers
  blockers.toList

/-! ## Required actions (scoring-engine.service.ts, lines 136-182) -/

/-- Priority rank table of generateRequiredActions (line 178). -/
def priorityOrder : ActionPriority → Nat
  | .urgent => 0
  | .high => 1
  | .medium => 2
  | .low => 3

/-- Action generated from a critical/high risk (lines 144-152). -/
def riskAction (risk : DocumentRisk) : RequiredAction :=
  { priority := if risk.severity = .critical then .urgent else .high,
    action := risk.recommendation, reason := risk.description, status := .pending }

/-- Action generated from a blocker (lines 155-164). -/
def blockerAction (blocker : DealBlocker) : RequiredAction :=
  { priority := if blocker.type = .missing_signature then .urgent else .high,
    action := blocker.requiredAction, reason := blocker.description, status := .pending }

/-- Action generated from a required missing term (lines 167-175). -/
def termAction (term : MissingTerm) : RequiredAction :=
  { priority := .medium, action := "Add " ++ term.term ++ " to the document",
    reason := term.impact, status := .pending }

/-- The pre-sort action list of generateRequiredActions (lines 141-175):
risk-derived, then blocker-derived, then term-derived actions, mirroring the
sequential pushes. -/
def generatedActions (risks : List DocumentRisk) (missingTerms : List MissingTerm)
    (blockers : List DealBlocker) : List RequiredAction :=
  let actions : Array RequiredAction := #[]
  let highRisks := risks.filter fun r => r.severity = .critical || r.severity = .high
  let actions := highRisks.foldl (fun acc risk => acc.push (riskAction risk)) actions
  let actions := blockers.foldl (fun acc blocker => acc.push (blockerAction blocker)) actions
  let requiredTerms := missingTerms.filter fun t => t.importance = .required
  let actions := requiredTerms.foldl (fun acc term => acc.push (termAction term)) actions
  actions.toList

/-- Comparison used by `actions.sort((a, b) => priorityOrder[a.priority] -
priorityOrder[b.priority])`. -/
def actionLE (a b : RequiredAction) : Bool :=
  priorityOrder a.priority ≤ priorityOrder b.priority

/-- generateRequiredActions (lines 136-182).  JS `Array.prototype.sort` is
required to be stable (ES2019); a stable sort by a total preorder is unique,
so it is embedded as a stable merge sort. -/
def generateRequiredActions (risks : List DocumentRisk)
    (missingTerms : List MissingTerm) (blockers : List DealBlocker) : List RequiredAction :=
  (generatedActions risks missingTerms blockers).mergeSort actionLE

/-! ## Document store and reanalyze (document.routes.ts, lines 21, 208-233) -/

/-- Lookup in the in-memory `documentStore` map. -/
def storeGet (store : List (String × DocumentAnalysis)) (key : String) :
    Option DocumentAnalysis :=
  match store with
  | [] => none
  | (k, v) :: rest => if k = key then some v else storeGet rest key

/-- `Map.set`: replace the value at an existing key, else append. -/
def storeSet (store : List (String × DocumentAnalysis)) (key : String)
    (value : DocumentAnalysis) : List (String × DocumentAnalysis) :=
  match store with
  | [] => [(key, value)]
  | (k, v) :: rest =>
      if k = key then (key, value) :: rest else (k, v) :: storeSet rest key value

/-- Reanalyze handler (lines 208-233): on a missing id the store is untouched
and the response is a 404 (`none`); otherwise only `analyzedAt` is refreshed
with the current timestamp and the updated analysis is stored and returned.
No part of the analysis pipeline is re-run. -/
def reanalyzeDocument (now : String) (store : List (String × DocumentAnalysis))
    (documentId : String) :
    List (String × DocumentAnalysis) × Option DocumentAnalysis :=
  match storeGet store documentId with
  | none => (store, none)
  | some existingAnalysis =>
      let updated := { existingAnalysis with analyzedAt := now }
      (storeSet store documentId updated, some updated)

/-! ## Claim theorems -/

/-- C1: calculateRiskScore is order-independent over its input collections:
permuting the risks, the missing terms, and the blockers in any way yields an
identical RiskScore (overall, all four breakdown fields, and grade). -/
theorem calculateRiskScore_order_independent
    (risks risks' : List DocumentRisk) (terms terms' : List MissingTerm)
    (blockers blockers' : List DealBlocker)
    (hr : risks.Perm risks') (ht : terms.Perm terms') (hb : blockers.Perm blockers') :
    calculateRiskScore risks terms blockers = calculateRiskScore risks' terms' blockers' := by
  rw [calculateRiskScore_eq, calculateRiskScore_eq,
      (hr.map riskScoreQ).sum_eq, (hr.map mcContrib).sum_eq, (hr.map utContrib).sum_eq,
      (hr.map ciContrib).sum_eq, (hr.map leContrib).sum_eq,
      (ht.map termPenaltyQ).sum_eq, hb.length_eq]

/-- Witness for C1: swapping two concrete risks and reversing a two-element
missing-term list leaves the concrete score unchanged. -/
theorem calculateRiskScore_order_independent_witness :
    calculateRiskScore
        [⟨.liability_exposure, .critical, "a", "b", "c"⟩,
         ⟨.payment_risk, .medium, "d", "e", "f"⟩]
        [⟨"Term Duration", .required, "g", "h"⟩] [] =
      calculateRiskScore
        [⟨.payment_risk, .medium, "d", "e", "f"⟩,
         ⟨.liability_exposure, .critical, "a", "b", "c"⟩]
        [⟨"Term Duration", .required, "g", "h"⟩] [] :=
  calculateRiskScore_order_independent _ _ _ _ _ _
    (List.Perm.swap _ _ _) (List.Perm.refl _) (List.Perm.refl _)

/-- C2: a single critical liability_exposure risk with no missing terms and
no blockers scores overall 30 (the 30-point contribution, unclamped), grade
B, and a liabilityExposure bucket clamped to 25 with the other three buckets
zero — whatever the risk's text fields are. -/
theorem calculateRiskScore_single_critical_liability
    (title description recommendation : String) :
    calculateRiskScore
        [{ category := .liability_exposure, severity := .critical,
           title := title, description := description,
           recommendation := recommendation }] [] [] =
      { overall := 30,
        breakdown := { missingClauses := 0, unfavorableTerms := 0,
                       complianceIssues := 0, liabilityExposure := 25 },
        grade := .B } := by
  rw [calculateRiskScore_eq]
  simp [riskScoreQ, RISK_WEIGHTS, SEVERITY_MULTIPLIERS, mcContrib, utContrib,
        ciContrib, leContrib, roundQ, calculateGrade]

/-- C3: for every input the overall score lies in [0, 100] and each of the
four breakdown fields lies in [0, 25], each bound independently of the
others. -/
theorem calculateRiskScore_bounds
    (risks : List DocumentRisk) (terms : List MissingTerm) (blockers : List DealBlocker) :
    0 ≤ (calculateRiskScore risks terms blockers).overall ∧
    (calculateRiskScore risks terms blockers).overall ≤ 100 ∧
    0 ≤ (calculateRiskScore risks terms blockers).breakdown.missingClauses ∧
    (calculateRiskScore risks terms blockers).breakdown.missingClauses ≤ 25 ∧
    0 ≤ (calculateRiskScore risks terms blockers).breakdown.unfavorableTerms ∧
    (calculateRiskScore risks terms blockers).breakdown.unfavorableTerms ≤ 25 ∧
    0 ≤ (calculateRiskScore risks terms blockers).breakdown.complianceIssues ∧
    (calculateRiskScore risks terms blockers).breakdown.complianceIssues ≤ 25 ∧
    0 ≤ (calculateRiskScore risks terms blockers).breakdown.liabilityExposure ∧
    (calculateRiskScore risks terms blockers).breakdown.liabilityExposure ≤ 25 := by
  rw [calculateRiskScore_eq]
  refine ⟨Nat.zero_le _, ?_, Nat.zero_le _, ?_, Nat.zero_le _, ?_,
          Nat.zero_le _, ?_, Nat.zero_le _, ?_⟩ <;> exact Nat.min_le_left _ _

theorem minNat_mono {c a b : Nat} (h : a ≤ b) : Nat.min c a ≤ Nat.min c b := by
  unfold Nat.min
  exact inf_le_inf_left c h

/-- Pointwise comparison of risk scores used to state monotonicity. -/
def scoreLE (s t : RiskScore) : Prop :=
  s.overall ≤ t.overall ∧
  s.breakdown.missingClauses ≤ t.breakdown.missingClauses ∧
  s.breakdown.unfavorableTerms ≤ t.breakdown.unfavorableTerms ∧
  s.breakdown.complianceIssues ≤ t.breakdown.complianceIssues ∧
  s.breakdown.liabilityExposure ≤ t.breakdown.liabilityExposure

theorem roundQ_mono {a b : Nat} (h : a ≤ b) : roundQ a ≤ roundQ b :=
  Nat.div_le_div_right (Nat.add_le_add_right h 2)

/-- C9: calculateRiskScore is monotone — appending one more risk, missing
term, or blocker can only keep or increase the overall score and every
breakdown field. -/
theorem calculateRiskScore_monotone_append
    (risks : List DocumentRisk) (terms : List MissingTerm) (blockers : List DealBlocker)
    (r : DocumentRisk) (t : MissingTerm) (b : DealBlocker) :
    scoreLE (calculateRiskScore risks terms blockers)
        (calculateRiskScore (risks ++ [r]) terms blockers) ∧
    scoreLE (calculateRiskScore risks terms blockers)
        (calculateRiskScore risks (terms ++ [t]) blockers) ∧
    scoreLE (calculateRiskScore risks terms blockers)
        (calculateRiskScore risks terms (blockers ++ [b])) := by
  refine ⟨?_, ?_, ?_⟩ <;>
    · rw [scoreLE, calculateRiskScore_eq, calculateRiskScore_eq]
      refine ⟨?_, ?_, ?_, ?_, ?_⟩ <;>
        · simp only [List.map_append, List.sum_append, List.length_append,
            List.map_cons, List.map_nil, List.sum_cons, List.sum_nil, List.length_cons,
            List.length_nil]
          exact minNat_mono (roundQ_mono (by omega))

/-- C4: the AI-backed extraction operations never surface an error and are
total.  With no API credential configured the external call is not attempted
(second component `false`) and the result is exactly the pattern/rule
fallback; with a credential, a throwing call, unparseable content, or a
response without content all yield exactly the same fallback result. -/
theorem ai_extraction_fallback :
    (∀ (text : String) (call : AiCall (List ExtractedEntity)),
      extractEntities "" call text = (extractEntitiesWithPatterns text, false)) ∧
    (∀ (text docType : String) (call : AiCall (List DocumentRisk)),
      identifyRisks "" call text docType = (identifyRisksWithRules text docType, false)) ∧
    (∀ (text key : String), key ≠ "" →
      extractEntities key .throws text = (extractEntitiesWithPatterns text, true) ∧
      extractEntities key .noContent text = (extractEntitiesWithPatterns text, true)) ∧
    (∀ (text docType key : String), key ≠ "" →
      identifyRisks key .throws text docType = (identifyRisksWithRules text docType, true) ∧
      identifyRisks key .noContent text docType = (identifyRisksWithRules text docType, true)) := by
  refine ⟨fun text call => rfl, fun text docType call => rfl, ?_, ?_⟩
  · intro text key h
    simp [extractEntities, h]
  · intro text docType key h
    simp [identifyRisks, h]

/-- Witness for C4: with a configured key, a throwing entity extraction call
on a concrete text returns the pattern fallback. -/
theorem ai_extraction_fallback_witness :
    "sk-key" ≠ "" ∧
    extractEntities "sk-key" .throws "due 1/2/2034" =
      (extractEntitiesWithPatterns "due 1/2/2034", true) :=
  ⟨by decide, (ai_extraction_fallback.2.2.1 "due 1/2/2034" "sk-key" (by decide)).1⟩

/-- C6: filename classification wins over content classification, in the
fixed chain order nda, proposal, contract, agreement, invoice, sow, msa
(`filenameType` is that chain); in particular the filename "MSA-Acme.pdf"
classifies as msa whatever the text says. -/
theorem detectDocumentType_filename_precedence :
    (∀ (text filename : String) (t : DocumentType),
      filenameType (strLower filename) = some t → detectDocumentType text filename = t) ∧
    (∀ text : String, detectDocumentType text "MSA-Acme.pdf" = .msa) := by
  constructor
  · intro text filename t h
    simp only [detectDocumentType, h]
  · intro text
    simp only [detectDocumentType]
    rfl

/-- Witness for C6: a filename containing "nda" hits the first chain link,
and the concrete classification matches. -/
theorem detectDocumentType_filename_precedence_witness :
    filenameType (strLower "My-NDA-v2.pdf") = some .nda ∧
    detectDocumentType "unrelated text" "My-NDA-v2.pdf" = .nda :=
  ⟨by decide,
   detectDocumentType_filename_precedence.1 "unrelated text" "My-NDA-v2.pdf" .nda (by decide)⟩

theorem contentType_ne_agreement (lowerText : String) :
    contentType lowerText ≠ .agreement := by
  unfold contentType
  cases hf : contentPatterns.find?
      (fun p => 2 ≤ (p.2.filter (fun kw => strIncludes lowerText kw)).length) with
  | none => simp
  | some p =>
      have hm := List.mem_of_find?_eq_some hf
      simp only [contentPatterns, List.mem_cons, List.not_mem_nil, or_false] at hm
      rcases hm with h1 | h1 | h1 | h1 | h1 | h1 <;> subst h1 <;> simp

theorem filenameType_ne_agreement (lowerFilename : String) (t : DocumentType)
    (h : strIncludes lowerFilename "agreement" = false)
    (hf : filenameType lowerFilename = some t) : t ≠ .agreement := by
  unfold filenameType at hf
  simp only [h] at hf
  repeat' split at hf
  all_goals try exact Option.noConfusion hf
  all_goals (injection hf with hf2; subst hf2)
  all_goals simp_all

/-- C10: the agreement document type is reachable only through the filename
check: whenever the lowercased filename does not contain "agreement", the
classification is never agreement (the content-pattern table has no agreement
entry). -/
theorem detectDocumentType_agreement_only_by_filename
    (text filename : String)
    (h : strIncludes (strLower filename) "agreement" = false) :
    detectDocumentType text filename ≠ .agreement := by
  simp only [detectDocumentType]
  cases hf : filenameType (strLower filename) with
  | none => simp only [hf]; exact contentType_ne_agreement (strLower text)
  | some t => simp only [hf]; exact filenameType_ne_agreement (strLower filename) t h hf

/-- Witness for C10: a concrete filename without "agreement" in it is not
classified as agreement even when the text mentions agreements. -/
theorem detectDocumentType_agreement_only_by_filename_witness :
    strIncludes (strLower "doc.pdf") "agreement" = false ∧
    detectDocumentType "this agreement is an agreement" "doc.pdf" ≠ .agreement :=
  ⟨by decide,
   detectDocumentType_agreement_only_by_filename "this agreement is an agreement" "doc.pdf"
     (by decide)⟩

theorem foldl_push_toList {α β : Type} (f : β → α) (l : List β) (a : Array α) :
    (l.foldl (fun acc x => acc.push (f x)) a).toList = a.toList ++ l.map f := by
  induction l generalizing a with
  | nil => simp
  | cons x xs ih => simp [ih]

theorem identifyBlockers_decomp (text : String) (risks : List DocumentRisk)
    (missingTerms : List MissingTerm) :
    identifyBlockers text risks missingTerms =
      (if !strIncludes (strLower text) "signature" &&
          !strIncludes (strLower text) "signed by"
       then [signatureBlocker] else [])
      ++ (risks.filter fun r => r.severity = .critical).map legalReviewBlocker
      ++ (missingTerms.filter fun t => t.importance = .required).map negotiationBlocker := by
  simp only [identifyBlockers]
  rw [foldl_push_toList, foldl_push_toList]
  split <;> simp

/-- C7: deal blockers are exactly one missing_signature blocker when no
signature keyword appears, plus one legal_review blocker per
critical-severity risk, plus one negotiation_required blocker per
required-importance missing term; in particular, signature-free text with no
risks and no missing terms yields exactly the signature blocker. -/
theorem identifyBlockers_exact :
    (∀ (text : String) (risks : List DocumentRisk) (missingTerms : List MissingTerm),
      identifyBlockers text risks missingTerms =
        (if !strIncludes (strLower text) "signature" &&
            !strIncludes (strLower text) "signed by"
         then [signatureBlocker] else [])
        ++ (risks.filter fun r => r.severity = .critical).map legalReviewBlocker
        ++ (missingTerms.filter fun t => t.importance = .required).map negotiationBlocker) ∧
    (∀ text : String,
      strIncludes (strLower text) "signature" = false →
      strIncludes (strLower text) "signed by" = false →
      identifyBlockers text [] [] = [signatureBlocker] ∧
      signatureBlocker.type = .missing_signature) := by
  refine ⟨identifyBlockers_decomp, fun text h1 h2 => ⟨?_, rfl⟩⟩
  rw [identifyBlockers_decomp]
  simp [h1, h2]

/-- Witness for C7: text with no signature keyword and empty inputs produces
exactly the signature blocker. -/
theorem identifyBlockers_exact_witness :
    strIncludes (strLower "hello world") "signature" = false ∧
    strIncludes (strLower "hello world") "signed by" = false ∧
    identifyBlockers "hello world" [] [] = [signatureBlocker] :=
  ⟨by decide, by decide,
   (identifyBlockers_exact.2 "hello world" (by decide) (by decide)).1⟩

theorem generatedActions_eq (risks : List DocumentRisk) (missingTerms : List MissingTerm)
    (blockers : List DealBlocker) :
    generatedActions risks missingTerms blockers =
      (risks.filter fun r => r.severity = .critical || r.severity = .high).map riskAction
      ++ blockers.map blockerAction
      ++ (missingTerms.filter fun t => t.importance = .required).map termAction := by
  simp only [generatedActions]
  rw [foldl_push_toList, foldl_push_toList, foldl_push_toList]
  simp

theorem actionLE_trans (a b c : RequiredAction) :
    actionLE a b → actionLE b c → actionLE a c := by
  simp only [actionLE, decide_eq_true_eq]
  omega

theorem actionLE_total (a b : RequiredAction) : actionLE a b || actionLE b a := by
  simp only [actionLE, Bool.or_eq_true, decide_eq_true_eq]
  omega

/-- C5: generateRequiredActions returns a list sorted by nondecreasing
priority rank, and the sort is stable: for each priority, the sub-sequence of
that priority equals the one of the generation-order list `generatedActions`
(risk-derived actions in risk order, then blocker-derived, then
required-term-derived). -/
theorem generateRequiredActions_sorted_stable (risks : List DocumentRisk)
    (missingTerms : List MissingTerm) (blockers : List DealBlocker) :
    (generateRequiredActions risks missingTerms blockers).Pairwise
      (fun a b => priorityOrder a.priority ≤ priorityOrder b.priority) ∧
    ∀ p : ActionPriority,
      (generateRequiredActions risks missingTerms blockers).filter
          (fun a => a.priority = p) =
        (generatedActions risks missingTerms blockers).filter
          (fun a => a.priority = p) := by
  constructor
  · have hs := @List.sorted_mergeSort RequiredAction actionLE actionLE_trans actionLE_total
      (generatedActions risks missingTerms blockers)
    exact hs.imp (fun hab => by simpa [actionLE] using hab)
  · intro p
    have hsub : List.Sublist ((generatedActions risks missingTerms blockers).filter
        (fun a => a.priority = p)) (generatedActions risks missingTerms blockers) :=
      List.filter_sublist _
    have hpw : ((generatedActions risks missingTerms blockers).filter
        (fun a => a.priority = p)).Pairwise (fun a b => actionLE a b = true) := by
      apply List.pairwise_of_forall_mem_list
      intro a ha b hb
      have hpa := (List.mem_filter.mp ha).2
      have hpb := (List.mem_filter.mp hb).2
      simp only [decide_eq_true_eq] at hpa hpb
      simp [actionLE, hpa, hpb]
    have hstable := List.sublist_mergeSort actionLE_trans actionLE_total hpw hsub
    have hff : (((generatedActions risks missingTerms blockers).filter
        (fun a => a.priority = p)).filter (fun a => a.priority = p)) =
        ((generatedActions risks missingTerms blockers).filter (fun a => a.priority = p)) :=
      List.filter_eq_self.mpr (fun a ha => (List.mem_filter.mp ha).2)
    have hsubf := hstable.filter (fun a : RequiredAction => decide (a.priority = p))
    rw [hff] at hsubf
    have hperm := (List.mergeSort_perm (generatedActions risks missingTerms blockers)
      actionLE).filter (fun a : RequiredAction => decide (a.priority = p))
    exact (hsubf.eq_of_length hperm.length_eq.symm).symm

theorem storeGet_storeSet (store : List (String × DocumentAnalysis)) (key : String)
    (value : DocumentAnalysis) : storeGet (storeSet store key value) key = some value := by
  induction store with
  | nil => simp [storeSet, storeGet]
  | cons kv rest ih =>
      by_cases h : kv.1 = key <;> simp [storeSet, storeGet, h, ih]

/-- C8: reanalyze is a timestamp-only shallow update: for every stored
analysis, afterwards the stored (and returned) analysis carries the new
`analyzedAt` timestamp while every other field — documentId, filename,
documentType, uploadedAt, entities, risks, missingTerms, blockers,
riskScore, summary, rawText — is unchanged; nothing is recomputed. -/
theorem reanalyze_timestamp_only (store : List (String × DocumentAnalysis))
    (documentId now : String) (a : DocumentAnalysis)
    (h : storeGet store documentId = some a) :
    ∃ a' : DocumentAnalysis,
      (reanalyzeDocument now store documentId).1 = storeSet store documentId a' ∧
      (reanalyzeDocument now store documentId).2 = some a' ∧
      storeGet (reanalyzeDocument now store documentId).1 documentId = some a' ∧
      a'.analyzedAt = now ∧
      a'.documentId = a.documentId ∧ a'.filename = a.filename ∧
      a'.documentType = a.documentType ∧ a'.uploadedAt = a.uploadedAt ∧
      a'.entities = a.entities ∧ a'.risks = a.risks ∧
      a'.missingTerms = a.missingTerms ∧ a'.blockers = a.blockers ∧
      a'.riskScore = a.riskScore ∧ a'.summary = a.summary ∧
      a'.rawText = a.rawText := by
  refine ⟨{ a with analyzedAt := now }, ?_, ?_, ?_,
          rfl, rfl, rfl, rfl, rfl, rfl, rfl, rfl, rfl, rfl, rfl, rfl⟩
  · simp [reanalyzeDocument, h]
  · simp [reanalyzeDocument, h]
  · simp only [reanalyzeDocument, h]
    exact storeGet_storeSet store documentId _

/-- Analysis value used by the C8 witness. -/
def sampleAnalysis : DocumentAnalysis :=
  { documentId := "doc-1", filename := "contract.pdf", documentType := .contract,
    uploadedAt := "2026-01-01T00:00:00Z", analyzedAt := "2026-01-01T00:00:00Z",
    entities := [], risks := [], missingTerms := [], blockers := [],
    riskScore := calculateRiskScore [] [] [], summary := "s", rawText := "t" }

/-- Witness for C8: reanalyzing a concrete one-document store refreshes only
the timestamp. -/
theorem reanalyze_timestamp_only_witness :
    storeGet [("doc-1", sampleAnalysis)] "doc-1" = some sampleAnalysis ∧
    ∃ a' : DocumentAnalysis,
      (reanalyzeDocument "2026-02-02T00:00:00Z" [("doc-1", sampleAnalysis)] "doc-1").1 =
        storeSet [("doc-1", sampleAnalysis)] "doc-1" a' ∧
      (reanalyzeDocument "2026-02-02T00:00:00Z" [("doc-1", sampleAnalysis)] "doc-1").2 =
        some a' ∧
      storeGet (reanalyzeDocument "2026-02-02T00:00:00Z"
          [("doc-1", sampleAnalysis)] "doc-1").1 "doc-1" = some a' ∧
      a'.analyzedAt = "2026-02-02T00:00:00Z" ∧
      a'.documentId = sampleAnalysis.documentId ∧
      a'.filename = sampleAnalysis.filename ∧
      a'.documentType = sampleAnalysis.documentType ∧
      a'.uploadedAt = sampleAnalysis.uploadedAt ∧
      a'.entities = sampleAnalysis.entities ∧ a'.risks = sampleAnalysis.risks ∧
      a'.missingTerms = sampleAnalysis.missingTerms ∧
      a'.blockers = sampleAnalysis.blockers ∧
      a'.riskScore = sampleAnalysis.riskScore ∧
      a'.summary = sampleAnalysis.summary ∧
      a'.rawText = sampleAnalysis.rawText :=
  ⟨by decide,
   reanalyze_timestamp_only [("doc-1", sampleAnalysis)] "doc-1"
     "2026-02-02T00:00:00Z" sampleAnalysis (by decide)⟩
